import Mathlib

/-!
# Verification of the ANCS client protocol core (`ble_ancs_c.c`)

A shallow embedding of the client-side protocol logic found in
`src/targetlibs/nrf5x/nrf5_sdk/components/ble/ble_services/ble_ancs_c/ble_ancs_c.c`:
the notification decoder (`parse_notif`), the streaming attribute parser
(`parse_get_notif_attrs_response`), the outbound command queue
(`tx_buffer_process`, `cccd_configure`, `ble_ancs_get_notif_attrs`), and the
configuration entry points (`ble_ancs_c_attr_add`, `ble_ancs_c_request_attrs`).

Machine integers are modelled as `Nat` (bytes are `Nat` values below 256;
the only places where C integer width matters are noted inline).  The module
statics of the C file become explicit state records threaded through the
functions.  Pointers to caller-owned destination buffers are modelled by
keying each buffer by the attribute id it is registered under; a NULL
pointer argument is modelled by `Option`.
-/

namespace BleAncs

/-- Modelled from the spec: ANCS "get-notification-attributes" command
identifier (`BLE_ANCS_COMMAND_ID_GET_NOTIF_ATTRIBUTES` from the missing
header `ble_ancs_c.h`; the value is the protocol command id 0). -/
def BLE_ANCS_COMMAND_ID_GET_NOTIF_ATTRIBUTES : Nat := 0

/-- Modelled from the spec: number of attribute kinds in the registry
(`BLE_ANCS_NB_OF_ATTRS` from the missing header; the reference protocol has
six kinds: app identifier, title, subtitle, message, message size, date). -/
def BLE_ANCS_NB_OF_ATTRS : Nat := 6

/-- Modelled from the spec: attribute kind of the title
(`BLE_ANCS_NOTIF_ATTR_ID_TITLE` from the missing header). -/
def BLE_ANCS_NOTIF_ATTR_ID_TITLE : Nat := 1

/-- Modelled from the spec: attribute kind of the subtitle
(`BLE_ANCS_NOTIF_ATTR_ID_SUBTITLE` from the missing header). -/
def BLE_ANCS_NOTIF_ATTR_ID_SUBTITLE : Nat := 2

/-- Modelled from the spec: attribute kind of the message
(`BLE_ANCS_NOTIF_ATTR_ID_MESSAGE` from the missing header). -/
def BLE_ANCS_NOTIF_ATTR_ID_MESSAGE : Nat := 3

/-- Modelled from the spec: the protocol's absolute maximum registration
length (`BLE_ANCS_ATTR_DATA_MAX` from the missing header). -/
def BLE_ANCS_ATTR_DATA_MAX : Nat := 32

/-- Modelled from the spec: fixed length of a "new notification" packet
(`BLE_ANCS_NOTIFICATION_DATA_LENGTH` from the missing header; the spec fixes
it at 8 bytes). -/
def BLE_ANCS_NOTIFICATION_DATA_LENGTH : Nat := 8

/-- Modelled from the spec: number of known event-id values
(`BLE_ANCS_NB_OF_EVT_ID` from the missing header; added/modified/removed). -/
def BLE_ANCS_NB_OF_EVT_ID : Nat := 3

/-- Modelled from the spec: number of known category-id values
(`BLE_ANCS_NB_OF_CATEGORY_ID` from the missing header). -/
def BLE_ANCS_NB_OF_CATEGORY_ID : Nat := 12

/-- Modelled from the spec: bit position of the "silent" flag. -/
def BLE_ANCS_EVENT_FLAG_SILENT : Nat := 0

/-- Modelled from the spec: bit position of the "important" flag. -/
def BLE_ANCS_EVENT_FLAG_IMPORTANT : Nat := 1

/-- Modelled from the spec: bit position of the "pre-existing" flag. -/
def BLE_ANCS_EVENT_FLAG_PREEXISTING : Nat := 2

/-- Modelled from the spec: bit position of the "positive action" flag. -/
def BLE_ANCS_EVENT_FLAG_POSITIVE_ACTION : Nat := 3

/-- Modelled from the spec: bit position of the "negative action" flag. -/
def BLE_ANCS_EVENT_FLAG_NEGATIVE_ACTION : Nat := 4

/-- Modelled from the spec: `NRF_SUCCESS` return code (missing SDK header). -/
def NRF_SUCCESS : Nat := 0

/-- Modelled from the spec: `NRF_ERROR_INVALID_PARAM` return code. -/
def NRF_ERROR_INVALID_PARAM : Nat := 7

/-- Modelled from the spec: `NRF_ERROR_INVALID_LENGTH` return code. -/
def NRF_ERROR_INVALID_LENGTH : Nat := 9

/-- Modelled from the spec: `NRF_ERROR_NULL` return code (what
`VERIFY_PARAM_NOT_NULL` returns for a NULL pointer argument). -/
def NRF_ERROR_NULL : Nat := 14

/-- Modelled from the spec: `BLE_GATT_OP_WRITE_REQ` write-operation code. -/
def BLE_GATT_OP_WRITE_REQ : Nat := 1

/-- `TX_BUFFER_MASK` (ble_ancs_c.c line 37). -/
def TX_BUFFER_MASK : Nat := 0x07

/-- `TX_BUFFER_SIZE` (ble_ancs_c.c line 38): one higher than the mask. -/
def TX_BUFFER_SIZE : Nat := TX_BUFFER_MASK + 1

/-- `WRITE_MESSAGE_LENGTH` (ble_ancs_c.c line 39). -/
def WRITE_MESSAGE_LENGTH : Nat := 20

/-- `BLE_CCCD_NOTIFY_BIT_MASK` (ble_ancs_c.c line 40). -/
def BLE_CCCD_NOTIFY_BIT_MASK : Nat := 0x0001

/-- Nordic `uint32_decode`: little-endian decode of 4 bytes starting at
index `i`.  Reads past the end of the list are modelled as the byte 0 (in C
they read whatever memory follows the packet). -/
def uint32_decode (p : List Nat) (i : Nat) : Nat :=
  p.getD i 0 + p.getD (i + 1) 0 * 256 + p.getD (i + 2) 0 * 65536 +
    p.getD (i + 3) 0 * 16777216

/-- Nordic `uint32_encode`: little-endian encode of a 32-bit value. -/
def uint32_encode (v : Nat) : List Nat :=
  [v % 256, v / 256 % 256, v / 65536 % 256, v / 16777216 % 256]

/-- Nordic `uint16_encode`: little-endian encode of a 16-bit value. -/
def uint16_encode (v : Nat) : List Nat :=
  [v % 256, v / 256 % 256]

/-- One registry entry (`ble_ancs_c_attr_list_t`): whether the kind should
be fetched, the registered maximum length, and the destination buffer
reference (`none` models a NULL pointer). -/
structure ble_ancs_c_attr_list_t where
  get : Bool
  attr_len : Nat
  p_attr_data : Option Nat
deriving DecidableEq

/-- `ble_ancs_c_parse_state_t` (ble_ancs_c.c lines 108-116). -/
inductive ble_ancs_c_parse_state_t
  | COMMAND_ID_AND_NOTIF_UID
  | ATTR_ID
  | ATTR_LEN1
  | ATTR_LEN2
  | ATTR_DATA
  | DONE
deriving DecidableEq

/-- Payload of one `BLE_ANCS_C_EVT_NOTIF_ATTRIBUTE` event as observed by
the application's event handler: the attribute id and declared length from
`evt.attr`, and the contents of the destination buffer at emission time. -/
structure AttrEvt where
  attr_id : Nat
  attr_len : Nat
  data : List Nat
deriving DecidableEq

/-- The statics used by `parse_get_notif_attrs_response`: parse phase,
remaining expected attribute count, the `evt.attr` fields, the running
write offset, and the destination buffers (keyed by attribute id, standing
for the registered `p_attr_data` pointers). -/
structure ParseSt where
  m_parse_state : ble_ancs_c_parse_state_t
  m_expected_number_of_attrs : Nat
  attr_id : Nat
  attr_len : Nat
  notif_uid : Nat
  current_attr_index : Nat
  bufs : Nat → List Nat

/-- Write byte `b` at position `i` of a buffer, zero-padding if the list is
shorter than `i` (the C buffer is caller-owned memory of sufficient size;
positions never written are irrelevant to every claim). -/
def listSet : List Nat → Nat → Nat → List Nat
  | [], 0, b => [b]
  | [], i + 1, b => 0 :: listSet [] i b
  | _ :: t, 0, b => b :: t
  | h :: t, i + 1, b => h :: listSet t i b

/-- Write the bytes `bs` at consecutive positions starting at `pos`. -/
def writeSeq (l : List Nat) (pos : Nat) : List Nat → List Nat
  | [] => l
  | b :: bs => writeSeq (listSet l pos b) (pos + 1) bs

/-- One iteration of the `for` loop of `parse_get_notif_attrs_response`
(ble_ancs_c.c lines 305-408).  `k` is the continuation for the next loop
iteration.  The final `.ATTR_DATA` branch where neither the copy guard nor
the termination guard holds is unreachable from the reachable parser
states (there the C loop would spin forever); it returns the current state
unchanged. -/
def parse_iter (reg : Nat → ble_ancs_c_attr_list_t) (m_ancs_evt_notif_uid : Nat)
    (p_data_src : List Nat) (hvx_data_len : Nat)
    (k : Nat → ParseSt → ParseSt × List AttrEvt)
    (index : Nat) (s : ParseSt) : ParseSt × List AttrEvt :=
  if index < hvx_data_len then
    match s.m_parse_state with
    | .COMMAND_ID_AND_NOTIF_UID =>
      let command_id := p_data_src.getD index 0
      let s1 := if command_id ≠ BLE_ANCS_COMMAND_ID_GET_NOTIF_ATTRIBUTES
        then { s with m_parse_state := .DONE } else s
      let uid := uint32_decode p_data_src (index + 1)
      let s2 := { s1 with notif_uid := uid, m_parse_state := .ATTR_ID }
      let s3 := if uid ≠ m_ancs_evt_notif_uid
        then { s2 with m_parse_state := .DONE } else s2
      k (index + 5) s3
    | .ATTR_ID =>
      if s.m_expected_number_of_attrs = 0 then
        k (index + 1) { s with m_parse_state := .DONE }
      else
        let aid := p_data_src.getD index 0
        let s1 := { s with attr_id := aid }
        let s2 := if (reg aid).get then { s1 with m_parse_state := .ATTR_LEN1 } else s1
        k (index + 1) { s2 with m_expected_number_of_attrs := s.m_expected_number_of_attrs - 1 }
    | .ATTR_LEN1 =>
      k (index + 1) { s with attr_len := p_data_src.getD index 0, m_parse_state := .ATTR_LEN2 }
    | .ATTR_LEN2 =>
      let alen := s.attr_len ||| (p_data_src.getD index 0 <<< 8)
      let s1 := { s with attr_len := alen, current_attr_index := 0 }
      if alen ≠ 0 then
        k (index + 1) { s1 with m_parse_state := .ATTR_DATA }
      else
        let r := k (index + 1) { s1 with m_parse_state := .ATTR_ID }
        (r.1, ⟨s1.attr_id, s1.attr_len, s1.bufs s1.attr_id⟩ :: r.2)
    | .ATTR_DATA =>
      let copy := s.current_attr_index < (reg s.attr_id).attr_len ∧
        s.current_attr_index < s.attr_len
      let s1 := if copy then
          { s with
            bufs := fun id => if id = s.attr_id
              then listSet (s.bufs s.attr_id) s.current_attr_index (p_data_src.getD index 0)
              else s.bufs id,
            current_attr_index := s.current_attr_index + 1 }
        else s
      let index1 := if copy then index + 1 else index
      if s1.current_attr_index = s1.attr_len ∨
          s1.current_attr_index = (reg s1.attr_id).attr_len then
        let s2 := { s1 with
          bufs := fun id => if id = s1.attr_id
            then listSet (s1.bufs s1.attr_id) s1.current_attr_index 0
            else s1.bufs id }
        let index2 := if s1.current_attr_index < s1.attr_len
          then index1 + (s1.attr_len - s1.current_attr_index) else index1
        let s3 := { s2 with m_parse_state := .ATTR_ID }
        let r := k index2 s3
        (r.1, ⟨s3.attr_id, s3.attr_len, s3.bufs s3.attr_id⟩ :: r.2)
      else
        k index1 s1
    | .DONE =>
      k hvx_data_len s
  else
    (s, [])

/-- The `for` loop of `parse_get_notif_attrs_response`, with fuel.  Every
loop iteration reachable from the initial parser state either consumes at
least one byte or switches `.ATTR_DATA` to `.ATTR_ID`, so
`2 * hvx_data_len + 2` fuel (supplied by the wrapper below) always
suffices. -/
def parse_loop (reg : Nat → ble_ancs_c_attr_list_t) (m_ancs_evt_notif_uid : Nat)
    (p_data_src : List Nat) (hvx_data_len : Nat) :
    Nat → Nat → ParseSt → ParseSt × List AttrEvt
  | 0, _, s => (s, [])
  | fuel + 1, index, s =>
    parse_iter reg m_ancs_evt_notif_uid p_data_src hvx_data_len
      (parse_loop reg m_ancs_evt_notif_uid p_data_src hvx_data_len fuel) index s

/-- `parse_get_notif_attrs_response` (ble_ancs_c.c lines 293-409) applied
to one received packet: returns the updated statics and the list of
`BLE_ANCS_C_EVT_NOTIF_ATTRIBUTE` events passed to the handler, in order. -/
def parse_get_notif_attrs_response (reg : Nat → ble_ancs_c_attr_list_t)
    (m_ancs_evt_notif_uid : Nat) (s : ParseSt) (p_data_src : List Nat) :
    ParseSt × List AttrEvt :=
  parse_loop reg m_ancs_evt_notif_uid p_data_src p_data_src.length
    (2 * p_data_src.length + 2) 0 s

/-- Feeding a whole fetch response, split as a list of consecutive
transport packets, to the parser (one `parse_get_notif_attrs_response`
call per packet, statics threaded through). -/
def run_packets (reg : Nat → ble_ancs_c_attr_list_t) (m_ancs_evt_notif_uid : Nat)
    (s : ParseSt) : List (List Nat) → ParseSt × List AttrEvt
  | [] => (s, [])
  | p :: ps =>
    let r1 := parse_get_notif_attrs_response reg m_ancs_evt_notif_uid s p
    let r2 := run_packets reg m_ancs_evt_notif_uid r1.1 ps
    (r2.1, r1.2 ++ r2.2)

/-- The decoded `ble_ancs_c_evt_notif_t` record. -/
structure ble_ancs_c_evt_notif_t where
  evt_id : Nat
  silent : Nat
  important : Nat
  pre_existing : Nat
  positive_action : Nat
  negative_action : Nat
  category_id : Nat
  category_count : Nat
  notif_uid : Nat
deriving DecidableEq

/-- Event types delivered to the application by the notification decoder. -/
inductive EvtType
  | BLE_ANCS_C_EVT_NOTIF
  | BLE_ANCS_C_EVT_INVALID_NOTIF
deriving DecidableEq

/-- `ble_ancs_verify_notification_format` (ble_ancs_c.c lines 419-427). -/
def ble_ancs_verify_notification_format (notif : ble_ancs_c_evt_notif_t) : Nat :=
  if notif.evt_id ≥ BLE_ANCS_NB_OF_EVT_ID ∨
      notif.category_id ≥ BLE_ANCS_NB_OF_CATEGORY_ID then
    NRF_ERROR_INVALID_PARAM
  else
    NRF_SUCCESS

/-- `parse_notif` (ble_ancs_c.c lines 436-485).  `m_ancs_evt_notif` is the
notification record held in the static `m_ancs_evt` when the function is
entered (the caller passes `&m_ancs_evt` for `p_ancs_evt`, so the decode
overwrites it in place).  Returns the record after the call and the
`(evt_type, notif record)` pairs handed to the application's event handler,
in order.  Reads past the end of the packet are modelled as the byte 0 (in
C they read adjacent memory; the lint suppression in the source admits
the possible out-of-bounds access). -/
def parse_notif (m_ancs_evt_notif : ble_ancs_c_evt_notif_t)
    (p_data_src : List Nat) (hvx_data_len : Nat) :
    ble_ancs_c_evt_notif_t × List (EvtType × ble_ancs_c_evt_notif_t) :=
  let evs1 := if hvx_data_len ≠ BLE_ANCS_NOTIFICATION_DATA_LENGTH
    then [(EvtType.BLE_ANCS_C_EVT_INVALID_NOTIF, m_ancs_evt_notif)] else []
  let flags := p_data_src.getD 1 0
  let n : ble_ancs_c_evt_notif_t :=
    { evt_id := p_data_src.getD 0 0
      silent := (flags >>> BLE_ANCS_EVENT_FLAG_SILENT) &&& 1
      important := (flags >>> BLE_ANCS_EVENT_FLAG_IMPORTANT) &&& 1
      pre_existing := (flags >>> BLE_ANCS_EVENT_FLAG_PREEXISTING) &&& 1
      positive_action := (flags >>> BLE_ANCS_EVENT_FLAG_POSITIVE_ACTION) &&& 1
      negative_action := (flags >>> BLE_ANCS_EVENT_FLAG_NEGATIVE_ACTION) &&& 1
      category_id := p_data_src.getD 2 0
      category_count := p_data_src.getD 3 0
      notif_uid := uint32_decode p_data_src 4 }
  let err_code := ble_ancs_verify_notification_format n
  let t := if err_code = NRF_SUCCESS
    then EvtType.BLE_ANCS_C_EVT_NOTIF else EvtType.BLE_ANCS_C_EVT_INVALID_NOTIF
  (n, evs1 ++ [(t, n)])

/-- `ancs_tx_request_t` (ble_ancs_c.c lines 52-56). -/
inductive ancs_tx_request_t
  | READ_REQ
  | WRITE_REQ
deriving DecidableEq

/-- The write half of a pending command (`write_params_t` together with the
fields of `ble_gattc_write_params_t` that the module sets). -/
structure write_params_t where
  handle : Nat
  len : Nat
  offset : Nat
  write_op : Nat
  gattc_value : List Nat
deriving DecidableEq

/-- `tx_message_t` (ble_ancs_c.c lines 94-103).  The C union is modelled
with both branches present; `type` selects the meaningful one. -/
structure tx_message_t where
  conn_handle : Nat
  type : ancs_tx_request_t
  read_handle : Nat
  write_req : write_params_t
deriving DecidableEq

/-- The statics of the outbound command queue: `m_tx_buffer` (slots keyed
by index), `m_tx_insert_index` and `m_tx_index`. -/
structure TxState where
  m_tx_buffer : Nat → tx_message_t
  m_tx_insert_index : Nat
  m_tx_index : Nat

/-- `tx_buffer_process` (ble_ancs_c.c lines 252-275).  `sd` models the
softdevice send primitive (`sd_ble_gattc_read` / `sd_ble_gattc_write`): it
returns the transport's error code for the handed-off message.  Returns
the updated queue state and the list of messages handed to the transport
(at most one).  The cursor increment is a `uint32_t` increment followed by
the mask. -/
def tx_buffer_process (sd : tx_message_t → Nat) (s : TxState) :
    TxState × List tx_message_t :=
  if s.m_tx_index ≠ s.m_tx_insert_index then
    let msg := s.m_tx_buffer s.m_tx_index
    let err_code := sd msg
    if err_code = NRF_SUCCESS then
      ({ s with m_tx_index := (s.m_tx_index + 1) % 4294967296 &&& TX_BUFFER_MASK },
        [msg])
    else
      (s, [msg])
  else
    (s, [])

/-- The message built by `cccd_configure` (ble_ancs_c.c lines 604-612). -/
def cccd_msg (conn_handle handle_cccd : Nat) (enable : Bool) : tx_message_t :=
  let cccd_val := if enable then BLE_CCCD_NOTIFY_BIT_MASK else 0
  { conn_handle := conn_handle
    type := .WRITE_REQ
    read_handle := 0
    write_req :=
      { handle := handle_cccd
        len := 2
        offset := 0
        write_op := BLE_GATT_OP_WRITE_REQ
        gattc_value := [cccd_val % 256, cccd_val / 256 % 256] } }

/-- `cccd_configure` (ble_ancs_c.c lines 596-616): store the CCCD write at
the fill cursor, advance and mask the fill cursor (a `uint32_t`
post-increment followed by the mask), drain, and return `NRF_SUCCESS`.
Returns (error code, queue state, messages handed to the transport). -/
def cccd_configure (sd : tx_message_t → Nat) (conn_handle handle_cccd : Nat)
    (enable : Bool) (s : TxState) : Nat × TxState × List tx_message_t :=
  let p_msg := cccd_msg conn_handle handle_cccd enable
  let s1 : TxState :=
    { s with
      m_tx_buffer := fun i => if i = s.m_tx_insert_index then p_msg else s.m_tx_buffer i
      m_tx_insert_index := (s.m_tx_insert_index + 1) % 4294967296 &&& TX_BUFFER_MASK }
  let r := tx_buffer_process sd s1
  (NRF_SUCCESS, r.1, r.2)

/-- The attribute-id encoding loop of `ble_ancs_get_notif_attrs`
(ble_ancs_c.c lines 669-684) run for attribute ids `0, 1, ..., n - 1`:
returns the bytes appended to `gattc_value` after the command id and the
UID, together with `number_of_requested_attr`. -/
def get_notif_attrs_loop (reg : Nat → ble_ancs_c_attr_list_t) : Nat → List Nat × Nat
  | 0 => ([], 0)
  | n + 1 =>
    let r := get_notif_attrs_loop reg n
    if (reg n).get then
      (r.1 ++ n ::
        (if n = BLE_ANCS_NOTIF_ATTR_ID_TITLE ∨ n = BLE_ANCS_NOTIF_ATTR_ID_SUBTITLE ∨
            n = BLE_ANCS_NOTIF_ATTR_ID_MESSAGE
          then uint16_encode (reg n).attr_len else []),
        r.2 + 1)
    else
      r

/-- The module statics touched by the command-building entry points:
the queue, the registry, the expected-attribute count, the parse phase,
and the handles the commands target. -/
structure AncsGlobals where
  tx : TxState
  m_ancs_attr_list : Nat → ble_ancs_c_attr_list_t
  m_expected_number_of_attrs : Nat
  m_parse_state : ble_ancs_c_parse_state_t
  control_point_handle_value : Nat
  conn_handle : Nat

/-- The control-point write message built by `ble_ancs_get_notif_attrs`. -/
def get_notif_attrs_msg (g : AncsGlobals) (p_uid : Nat) : tx_message_t :=
  let body := (get_notif_attrs_loop g.m_ancs_attr_list BLE_ANCS_NB_OF_ATTRS).1
  let gattc_value :=
    BLE_ANCS_COMMAND_ID_GET_NOTIF_ATTRIBUTES :: (uint32_encode p_uid ++ body)
  { conn_handle := g.conn_handle
    type := .WRITE_REQ
    read_handle := 0
    write_req :=
      { handle := g.control_point_handle_value
        len := gattc_value.length
        offset := 0
        write_op := BLE_GATT_OP_WRITE_REQ
        gattc_value := gattc_value } }

/-- `ble_ancs_get_notif_attrs` (ble_ancs_c.c lines 647-693): build the
fetch command at the fill cursor, advance and mask the fill cursor, record
the expected attribute count, drain, and return `NRF_SUCCESS`. -/
def ble_ancs_get_notif_attrs (sd : tx_message_t → Nat) (p_uid : Nat)
    (g : AncsGlobals) : Nat × AncsGlobals × List tx_message_t :=
  let p_msg := get_notif_attrs_msg g p_uid
  let tx1 : TxState :=
    { g.tx with
      m_tx_buffer := fun i => if i = g.tx.m_tx_insert_index then p_msg else g.tx.m_tx_buffer i
      m_tx_insert_index := (g.tx.m_tx_insert_index + 1) % 4294967296 &&& TX_BUFFER_MASK }
  let r := tx_buffer_process sd tx1
  (NRF_SUCCESS,
    { g with
      tx := r.1
      m_expected_number_of_attrs := (get_notif_attrs_loop g.m_ancs_attr_list BLE_ANCS_NB_OF_ATTRS).2 },
    r.2)

/-- `ble_ancs_c_attr_add` (ble_ancs_c.c lines 696-712).  `p_data = none`
models a NULL destination pointer.  Returns the error code and the updated
registry. -/
def ble_ancs_c_attr_add (id : Nat) (p_data : Option Nat) (len : Nat)
    (reg : Nat → ble_ancs_c_attr_list_t) : Nat × (Nat → ble_ancs_c_attr_list_t) :=
  match p_data with
  | none => (NRF_ERROR_NULL, reg)
  | some d =>
    if len = 0 ∨ len > BLE_ANCS_ATTR_DATA_MAX then
      (NRF_ERROR_INVALID_LENGTH, reg)
    else
      (NRF_SUCCESS,
        fun i => if i = id then ⟨true, len, some d⟩ else reg i)

/-- `ble_ancs_c_request_attrs` (ble_ancs_c.c lines 715-726): verify the
notification format first (`VERIFY_SUCCESS` returns the error code
immediately), then build and enqueue the fetch and reset the parse
phase. -/
def ble_ancs_c_request_attrs (sd : tx_message_t → Nat)
    (notif : ble_ancs_c_evt_notif_t) (g : AncsGlobals) :
    Nat × AncsGlobals × List tx_message_t :=
  let err_code := ble_ancs_verify_notification_format notif
  if err_code ≠ NRF_SUCCESS then
    (err_code, g, [])
  else
    let r := ble_ancs_get_notif_attrs sd notif.notif_uid g
    let g2 := { r.2.1 with m_parse_state := .COMMAND_ID_AND_NOTIF_UID }
    if r.1 ≠ NRF_SUCCESS then (r.1, g2, r.2.2) else (NRF_SUCCESS, g2, r.2.2)

/-- The declarative description of the attribute-fetch command from the
spec (one command-id byte, 4-byte little-endian UID, then in registry
order one kind byte per registered attribute followed, only for the title,
subtitle and message kinds, by the 2-byte little-endian registered
maximum length). -/
def fetchCmdSpec (reg : Nat → ble_ancs_c_attr_list_t) (uid : Nat) : List Nat :=
  BLE_ANCS_COMMAND_ID_GET_NOTIF_ATTRIBUTES ::
    (uint32_encode uid ++
      ((List.range BLE_ANCS_NB_OF_ATTRS).filter (fun a => (reg a).get)).flatMap
        (fun a => a ::
          (if a = BLE_ANCS_NOTIF_ATTR_ID_TITLE ∨ a = BLE_ANCS_NOTIF_ATTR_ID_SUBTITLE ∨
              a = BLE_ANCS_NOTIF_ATTR_ID_MESSAGE
            then uint16_encode (reg a).attr_len else [])))

/-- A small concrete registry: attribute kind 0 registered with capacity 1,
all other kinds unregistered. -/
def demoReg : Nat → ble_ancs_c_attr_list_t :=
  fun i => if i = 0 then ⟨true, 1, some 0⟩ else ⟨false, 0, none⟩

/-- A concrete registry with two registered kinds: kind 0 and kind 1, each
with capacity 1. -/
def demoReg2 : Nat → ble_ancs_c_attr_list_t :=
  fun i =>
    if i = 0 then ⟨true, 1, some 0⟩
    else if i = 1 then ⟨true, 1, some 1⟩
    else ⟨false, 0, none⟩

/-- The parser statics right after a fetch request for `n` attributes was
issued: phase reset to `COMMAND_ID_AND_NOTIF_UID`, expected count `n`. -/
def initParseSt (n : Nat) : ParseSt :=
  ⟨.COMMAND_ID_AND_NOTIF_UID, n, 0, 0, 0, 0, fun _ => []⟩

/-- Parser statics sitting at the `ATTR_ID` phase with one attribute still
expected. -/
def demoAttrSt : ParseSt :=
  ⟨.ATTR_ID, 1, 0, 0, 0, 0, fun _ => []⟩

/-- A concrete previously decoded notification record (all fields zero). -/
def demoNotifRec : ble_ancs_c_evt_notif_t :=
  ⟨0, 0, 0, 0, 0, 0, 0, 0, 0⟩

/-- A concrete notification record whose event id (3) is outside the known
enumeration. -/
def demoBadNotif : ble_ancs_c_evt_notif_t :=
  ⟨3, 0, 0, 0, 0, 0, 0, 0, 0⟩

/-- A concrete pending command. -/
def demoMsg : tx_message_t :=
  ⟨0, .WRITE_REQ, 0, ⟨0, 0, 0, 0, []⟩⟩

/-- A concrete queue state with one pending command (fill cursor 1, send
cursor 0). -/
def demoTx : TxState :=
  ⟨fun _ => demoMsg, 1, 0⟩

/-- A transport that rejects every hand-off (`NRF_ERROR_BUSY`). -/
def demoSdBusy : tx_message_t → Nat :=
  fun _ => 17

/-- Concrete module statics for the command-building entry points. -/
def demoGlobals : AncsGlobals :=
  ⟨demoTx, demoReg, 0, .COMMAND_ID_AND_NOTIF_UID, 0, 0⟩

/-- Destination buffers after the `ATTR_DATA` phase has consumed a
truncated attribute from write offset `s.current_attr_index` on: the
bytes `seg` are written at consecutive offsets and the terminator byte at
the registered capacity; other buffers are untouched. -/
def dataBufs (reg : Nat → ble_ancs_c_attr_list_t) (s : ParseSt) (aid : Nat)
    (seg : List Nat) : Nat → List Nat :=
  fun id =>
    if id = aid then
      listSet (writeSeq (s.bufs aid) s.current_attr_index seg) (reg aid).attr_len 0
    else s.bufs id

/-- The parser statics after the `ATTR_DATA` phase has consumed a
truncated attribute: back in `ATTR_ID`, write offset stopped at the
registered capacity, buffers as in `dataBufs`. -/
def dataSt (reg : Nat → ble_ancs_c_attr_list_t) (s : ParseSt) (aid : Nat)
    (seg : List Nat) : ParseSt :=
  { s with
    m_parse_state := .ATTR_ID
    current_attr_index := (reg aid).attr_len
    bufs := dataBufs reg s aid seg }

/-- Destination buffers after the truncated attribute `aid` has been
accumulated: the buffer registered for `aid` holds the first
`(reg aid).attr_len` content bytes followed by the terminator byte at
offset `(reg aid).attr_len`; all other buffers are untouched. -/
def truncBufs (reg : Nat → ble_ancs_c_attr_list_t) (s : ParseSt) (aid : Nat)
    (data : List Nat) : Nat → List Nat :=
  fun id =>
    if id = aid then
      listSet
        (writeSeq (s.bufs aid) 0
          ((List.range (reg aid).attr_len).map (fun j => data.getD j 0)))
        (reg aid).attr_len 0
    else s.bufs id

/-- The parser statics after the truncated attribute `aid` has been fully
consumed: back in the `ATTR_ID` phase, expected count decremented, write
offset stopped at the registered capacity, buffers as in `truncBufs`. -/
def truncSt (reg : Nat → ble_ancs_c_attr_list_t) (s : ParseSt) (aid lo hi : Nat)
    (data : List Nat) : ParseSt :=
  { s with
    m_parse_state := .ATTR_ID
    attr_id := aid
    attr_len := lo ||| (hi <<< 8)
    current_attr_index := (reg aid).attr_len
    m_expected_number_of_attrs := s.m_expected_number_of_attrs - 1
    bufs := truncBufs reg s aid data }

/-- The rest of the packet walk after the truncated attribute `aid`: the
loop resumes in the `ATTR_ID` phase at the byte just past the attribute's
declared content, i.e. at position `3 + declared length` of the packet
`aid :: lo :: hi :: (data ++ rest)`. -/
def truncCont (reg : Nat → ble_ancs_c_attr_list_t) (u : Nat) (s : ParseSt)
    (aid lo hi : Nat) (data rest : List Nat) : ParseSt × List AttrEvt :=
  parse_loop reg u (aid :: lo :: hi :: (data ++ rest))
    (aid :: lo :: hi :: (data ++ rest)).length
    (2 * (aid :: lo :: hi :: (data ++ rest)).length - 1 - (reg aid).attr_len)
    (3 + (lo ||| (hi <<< 8)))
    (truncSt reg s aid lo hi data)

/-- C1: refuted on the code.  The claim says that when the first byte of
the first packet differs from the get-notification-attributes command id,
the parser transitions directly to `DONE`, emits no event and ignores the
rest of the response.  In the code the `DONE` assignment at line 314 is
unconditionally overwritten by `m_parse_state = ATTR_ID` at line 319, so
when the UID matches, the parser keeps parsing: on the packet
`[5, 1,0,0,0, 0, 1,0, 42]` (wrong command byte 5, matching UID 1) it emits
one attribute event and ends in the `ATTR_ID` phase, not `DONE`. -/
theorem c1_invalid_command_id_not_aborted :
    (parse_get_notif_attrs_response demoReg 1 (initParseSt 1)
        [5, 1, 0, 0, 0, 0, 1, 0, 42]).2 = [⟨0, 1, [42, 0]⟩] ∧
    (parse_get_notif_attrs_response demoReg 1 (initParseSt 1)
        [5, 1, 0, 0, 0, 0, 1, 0, 42]).1.m_parse_state =
      .ATTR_ID := by
  decide

/-- C2: refuted on the code.  The claim says a wrong-length notification
packet yields exactly one "invalid notification" event with no decoding
attempted.  The code emits the invalid event but does not return
(lines 442-446), then decodes the packet anyway and emits a second event;
on the 7-byte packet `[0,0,0,0,1,0,0]` the decoded fields are in range, so
the second event is even a *valid* `BLE_ANCS_C_EVT_NOTIF`, and the decode
visibly happened (the UID field was filled in from the packet). -/
theorem c2_wrong_length_double_event :
    (parse_notif demoNotifRec [0, 0, 0, 0, 1, 0, 0] 7).2.map Prod.fst =
      [EvtType.BLE_ANCS_C_EVT_INVALID_NOTIF, EvtType.BLE_ANCS_C_EVT_NOTIF] ∧
    (parse_notif demoNotifRec [0, 0, 0, 0, 1, 0, 0] 7).1.notif_uid = 1 := by
  decide

/-- C3: refuted on the code.  The claim says the sequence of attribute
events is independent of how the response bytes are split into packets.
The truncation skip `index += (attr_len - current_attr_index)` (line 390)
only moves the index inside the current packet, so when the skipped bytes
straddle a packet boundary the leftover bytes of the truncated attribute
are misparsed as the next attribute header.  Concretely, with kind 0
registered at capacity 1 and two attributes expected, the response
`[0, 1,0,0,0, 0, 3,0, 10,20,30, 0, 1,0, 40]` fed whole yields two
attribute events, but split after byte 9 (inside the skipped region) it
yields only one. -/
theorem c3_split_changes_events :
    [0, 1, 0, 0, 0, 0, 3, 0, 10] ++ [20, 30, 0, 1, 0, 40] =
      [0, 1, 0, 0, 0, 0, 3, 0, 10, 20, 30, 0, 1, 0, 40] ∧
    (run_packets demoReg 1 (initParseSt 2)
        [[0, 1, 0, 0, 0, 0, 3, 0, 10], [20, 30, 0, 1, 0, 40]]).2 ≠
      (run_packets demoReg 1 (initParseSt 2)
        [[0, 1, 0, 0, 0, 0, 3, 0, 10, 20, 30, 0, 1, 0, 40]]).2 := by
  decide

/-- C6: one `tx_buffer_process` call hands at most one command to the
transport; if the queue is non-empty and the transport rejects the
hand-off, the whole queue state (in particular the send cursor) is left
unchanged, so the same command is retried at the next trigger; and the
send cursor moves only when the transport accepted, in which case it
advances by one (masked). -/
theorem c6_drain_sends_at_most_one (sd : tx_message_t → Nat) (s : TxState) :
    (tx_buffer_process sd s).2.length ≤ 1 ∧
    (s.m_tx_index ≠ s.m_tx_insert_index →
      sd (s.m_tx_buffer s.m_tx_index) ≠ NRF_SUCCESS →
      (tx_buffer_process sd s).1 = s) ∧
    ((tx_buffer_process sd s).1.m_tx_index ≠ s.m_tx_index →
      sd (s.m_tx_buffer s.m_tx_index) = NRF_SUCCESS ∧
      (tx_buffer_process sd s).1.m_tx_index =
        (s.m_tx_index + 1) % 4294967296 &&& TX_BUFFER_MASK) := by
  by_cases h1 : s.m_tx_index ≠ s.m_tx_insert_index
  · by_cases h2 : sd (s.m_tx_buffer s.m_tx_index) = NRF_SUCCESS <;>
      simp [tx_buffer_process, h1, h2]
  · simp [tx_buffer_process, h1]

/-- Witness for C6 at a concrete input: a busy transport and a non-empty
queue leave the queue state untouched. -/
theorem c6_drain_sends_at_most_one_witness :
    (tx_buffer_process demoSdBusy demoTx).1 = demoTx :=
  (c6_drain_sends_at_most_one demoSdBusy demoTx).2.1 (by decide) (by decide)

/-- C9: `ble_ancs_c_attr_add` rejects a NULL destination or a length that
is zero or above the protocol maximum with an error, leaving the registry
unchanged; for an in-range length and non-NULL buffer it succeeds and
records the should-fetch flag, the length and the buffer reference,
touching no other registry entry. -/
theorem c9_attr_add_validation (id : Nat) (p_data : Option Nat) (len : Nat)
    (reg : Nat → ble_ancs_c_attr_list_t) :
    ((p_data = none ∨ len = 0 ∨ len > BLE_ANCS_ATTR_DATA_MAX) →
      (ble_ancs_c_attr_add id p_data len reg).1 ≠ NRF_SUCCESS ∧
      (ble_ancs_c_attr_add id p_data len reg).2 = reg) ∧
    (∀ d, p_data = some d → 0 < len → len ≤ BLE_ANCS_ATTR_DATA_MAX →
      (ble_ancs_c_attr_add id p_data len reg).1 = NRF_SUCCESS ∧
      (ble_ancs_c_attr_add id p_data len reg).2 id = ⟨true, len, some d⟩ ∧
      ∀ j, j ≠ id → (ble_ancs_c_attr_add id p_data len reg).2 j = reg j) := by
  constructor
  · rintro (h | h | h)
    · simp [ble_ancs_c_attr_add, h, NRF_ERROR_NULL, NRF_SUCCESS]
    · cases p_data <;>
        simp [ble_ancs_c_attr_add, h, NRF_ERROR_NULL, NRF_ERROR_INVALID_LENGTH, NRF_SUCCESS]
    · cases p_data <;>
        simp [ble_ancs_c_attr_add, h, Nat.not_le_of_lt h, NRF_ERROR_NULL,
          NRF_ERROR_INVALID_LENGTH, NRF_SUCCESS]
  · rintro d rfl hpos hle
    have hnz : ¬(len = 0 ∨ len > BLE_ANCS_ATTR_DATA_MAX) := by omega
    refine ⟨by simp [ble_ancs_c_attr_add, hnz], by simp [ble_ancs_c_attr_add, hnz], ?_⟩
    intro j hj
    simp [ble_ancs_c_attr_add, hnz, hj]

/-- Witness for C9 at a concrete input: registering kind 1 with length 0
fails and leaves the registry unchanged. -/
theorem c9_attr_add_validation_witness :
    (ble_ancs_c_attr_add 1 (some 0) 0 demoReg).1 ≠ NRF_SUCCESS ∧
    (ble_ancs_c_attr_add 1 (some 0) 0 demoReg).2 = demoReg :=
  (c9_attr_add_validation 1 (some 0) 0 demoReg).1 (Or.inr (Or.inl rfl))

/-- `tx_buffer_process` never touches the message slots. -/
theorem tx_buffer_process_buffer (sd : tx_message_t → Nat) (s : TxState) :
    (tx_buffer_process sd s).1.m_tx_buffer = s.m_tx_buffer := by
  by_cases h1 : s.m_tx_index ≠ s.m_tx_insert_index
  · by_cases h2 : sd (s.m_tx_buffer s.m_tx_index) = NRF_SUCCESS <;>
      simp [tx_buffer_process, h1, h2]
  · simp [tx_buffer_process, h1]

/-- `tx_buffer_process` never touches the fill cursor. -/
theorem tx_buffer_process_insert (sd : tx_message_t → Nat) (s : TxState) :
    (tx_buffer_process sd s).1.m_tx_insert_index = s.m_tx_insert_index := by
  by_cases h1 : s.m_tx_index ≠ s.m_tx_insert_index
  · by_cases h2 : sd (s.m_tx_buffer s.m_tx_index) = NRF_SUCCESS <;>
      simp [tx_buffer_process, h1, h2]
  · simp [tx_buffer_process, h1]

/-- The send cursor after `tx_buffer_process` is either unchanged or
advanced by one and masked. -/
theorem tx_buffer_process_index (sd : tx_message_t → Nat) (s : TxState) :
    (tx_buffer_process sd s).1.m_tx_index = s.m_tx_index ∨
    (tx_buffer_process sd s).1.m_tx_index =
      (s.m_tx_index + 1) % 4294967296 &&& TX_BUFFER_MASK := by
  by_cases h1 : s.m_tx_index ≠ s.m_tx_insert_index
  · by_cases h2 : sd (s.m_tx_buffer s.m_tx_index) = NRF_SUCCESS <;>
      simp [tx_buffer_process, h1, h2]
  · simp [tx_buffer_process, h1]

/-- Anything masked with `TX_BUFFER_MASK` lies below `TX_BUFFER_SIZE`. -/
theorem and_mask_lt_size (x : Nat) : x &&& TX_BUFFER_MASK < TX_BUFFER_SIZE := by
  have h := @Nat.and_le_right x TX_BUFFER_MASK
  simp only [TX_BUFFER_MASK, TX_BUFFER_SIZE] at h ⊢
  omega

/-- The attribute-id encoding loop of `ble_ancs_get_notif_attrs` appends,
in ascending attribute-id order, one id byte per registered attribute
followed by the little-endian registered length for the title, subtitle
and message kinds, and counts the registered attributes. -/
theorem get_notif_attrs_loop_spec (reg : Nat → ble_ancs_c_attr_list_t) :
    ∀ n, get_notif_attrs_loop reg n =
      (((List.range n).filter (fun a => (reg a).get)).flatMap
          (fun a => a ::
            (if a = BLE_ANCS_NOTIF_ATTR_ID_TITLE ∨ a = BLE_ANCS_NOTIF_ATTR_ID_SUBTITLE ∨
                a = BLE_ANCS_NOTIF_ATTR_ID_MESSAGE
              then uint16_encode (reg a).attr_len else [])),
        ((List.range n).filter (fun a => (reg a).get)).length) := by
  intro n
  induction n with
  | zero => simp [get_notif_attrs_loop]
  | succ n ih =>
    by_cases hg : (reg n).get <;>
      simp [get_notif_attrs_loop, ih, List.range_succ, List.filter_append, hg]

/-- C7: the fetch command built by `ble_ancs_get_notif_attrs` is exactly
one command-id byte, the 4-byte little-endian UID, then in registry order
one kind byte per registered attribute followed — only for the title,
subtitle and message kinds — by the 2-byte little-endian registered
maximum length; the expected-attribute count stored for the parser equals
the number of kind bytes emitted; and that message is what sits in the
queue slot that was filled. -/
theorem c7_fetch_command_layout (sd : tx_message_t → Nat) (g : AncsGlobals)
    (uid : Nat) :
    (get_notif_attrs_msg g uid).write_req.gattc_value =
      fetchCmdSpec g.m_ancs_attr_list uid ∧
    (ble_ancs_get_notif_attrs sd uid g).2.1.m_expected_number_of_attrs =
      ((List.range BLE_ANCS_NB_OF_ATTRS).filter
        (fun a => (g.m_ancs_attr_list a).get)).length ∧
    (ble_ancs_get_notif_attrs sd uid g).2.1.tx.m_tx_buffer g.tx.m_tx_insert_index =
      get_notif_attrs_msg g uid := by
  refine ⟨?_, ?_, ?_⟩
  · simp [get_notif_attrs_msg, fetchCmdSpec, get_notif_attrs_loop_spec]
  · simp [ble_ancs_get_notif_attrs, get_notif_attrs_loop_spec]
  · simp [ble_ancs_get_notif_attrs, tx_buffer_process_buffer]

/-- C8: `ble_ancs_c_request_attrs` rejects a notification whose event id
or category id is out of the known enumeration with
`NRF_ERROR_INVALID_PARAM`, before anything is built, enqueued or handed to
the transport (the statics are returned unchanged and no message reaches
the transport); for an in-range notification it proceeds to build and
enqueue the fetch and resets the parse phase. -/
theorem c8_request_attrs_validation (sd : tx_message_t → Nat)
    (notif : ble_ancs_c_evt_notif_t) (g : AncsGlobals) :
    ((BLE_ANCS_NB_OF_EVT_ID ≤ notif.evt_id ∨
        BLE_ANCS_NB_OF_CATEGORY_ID ≤ notif.category_id) →
      ble_ancs_c_request_attrs sd notif g = (NRF_ERROR_INVALID_PARAM, g, [])) ∧
    (notif.evt_id < BLE_ANCS_NB_OF_EVT_ID →
      notif.category_id < BLE_ANCS_NB_OF_CATEGORY_ID →
      ble_ancs_c_request_attrs sd notif g =
        (NRF_SUCCESS,
          { (ble_ancs_get_notif_attrs sd notif.notif_uid g).2.1 with
            m_parse_state := .COMMAND_ID_AND_NOTIF_UID },
          (ble_ancs_get_notif_attrs sd notif.notif_uid g).2.2)) := by
  constructor
  · intro h
    have hv : ble_ancs_verify_notification_format notif = NRF_ERROR_INVALID_PARAM := by
      simp only [ble_ancs_verify_notification_format, ge_iff_le]
      exact if_pos h
    simp [ble_ancs_c_request_attrs, hv, NRF_ERROR_INVALID_PARAM, NRF_SUCCESS]
  · intro h1 h2
    have hv : ble_ancs_verify_notification_format notif = NRF_SUCCESS := by
      simp only [ble_ancs_verify_notification_format, ge_iff_le]
      refine if_neg ?_
      push_neg
      exact ⟨h1, h2⟩
    simp [ble_ancs_c_request_attrs, hv, ble_ancs_get_notif_attrs]

/-- Witness for C8 at a concrete input: a notification with event id 3
(out of the known enumeration) is rejected synchronously with the statics
untouched and nothing handed to the transport. -/
theorem c8_request_attrs_validation_witness :
    ble_ancs_c_request_attrs demoSdBusy demoBadNotif demoGlobals =
      (NRF_ERROR_INVALID_PARAM, demoGlobals, []) :=
  (c8_request_attrs_validation demoSdBusy demoBadNotif demoGlobals).1
    (Or.inl (by decide))

/-- C10: both enqueue operations (the subscription toggle
`cccd_configure` and the attribute fetch `ble_ancs_get_notif_attrs`)
return `NRF_SUCCESS` unconditionally, keep both queue cursors below the
power-of-two capacity by masking, and write the new command into the slot
at the old fill cursor regardless of what that slot held — a pending
command there is silently overwritten, there is no queue-full error. -/
theorem c10_enqueue_success_and_overwrite (sd : tx_message_t → Nat)
    (conn hc uid : Nat) (en : Bool) (s : TxState) (g : AncsGlobals) :
    (cccd_configure sd conn hc en s).1 = NRF_SUCCESS ∧
    (cccd_configure sd conn hc en s).2.1.m_tx_insert_index < TX_BUFFER_SIZE ∧
    (s.m_tx_index < TX_BUFFER_SIZE →
      (cccd_configure sd conn hc en s).2.1.m_tx_index < TX_BUFFER_SIZE) ∧
    (cccd_configure sd conn hc en s).2.1.m_tx_buffer s.m_tx_insert_index =
      cccd_msg conn hc en ∧
    (ble_ancs_get_notif_attrs sd uid g).1 = NRF_SUCCESS ∧
    (ble_ancs_get_notif_attrs sd uid g).2.1.tx.m_tx_insert_index < TX_BUFFER_SIZE ∧
    (g.tx.m_tx_index < TX_BUFFER_SIZE →
      (ble_ancs_get_notif_attrs sd uid g).2.1.tx.m_tx_index < TX_BUFFER_SIZE) ∧
    (ble_ancs_get_notif_attrs sd uid g).2.1.tx.m_tx_buffer g.tx.m_tx_insert_index =
      get_notif_attrs_msg g uid := by
  refine ⟨rfl, ?_, ?_, ?_, rfl, ?_, ?_, ?_⟩
  · simp [cccd_configure, tx_buffer_process_insert, and_mask_lt_size]
  · intro hs
    rcases tx_buffer_process_index sd
        { s with
          m_tx_buffer := fun i =>
            if i = s.m_tx_insert_index then cccd_msg conn hc en else s.m_tx_buffer i
          m_tx_insert_index :=
            (s.m_tx_insert_index + 1) % 4294967296 &&& TX_BUFFER_MASK } with h | h <;>
      simp [cccd_configure, h, and_mask_lt_size, hs]
  · simp [cccd_configure, tx_buffer_process_buffer]
  · simp [ble_ancs_get_notif_attrs, tx_buffer_process_insert, and_mask_lt_size]
  · intro hs
    rcases tx_buffer_process_index sd
        { g.tx with
          m_tx_buffer := fun i =>
            if i = g.tx.m_tx_insert_index then get_notif_attrs_msg g uid
            else g.tx.m_tx_buffer i
          m_tx_insert_index :=
            (g.tx.m_tx_insert_index + 1) % 4294967296 &&& TX_BUFFER_MASK } with h | h <;>
      simp [ble_ancs_get_notif_attrs, h, and_mask_lt_size, hs]
  · simp [ble_ancs_get_notif_attrs, tx_buffer_process_buffer]

/-- Witness for C10 at a concrete input: with the send cursor in range,
both cursors stay in range after an enqueue, and the call succeeded. -/
theorem c10_enqueue_success_and_overwrite_witness :
    (cccd_configure demoSdBusy 0 0 true demoTx).1 = NRF_SUCCESS ∧
    (cccd_configure demoSdBusy 0 0 true demoTx).2.1.m_tx_index < TX_BUFFER_SIZE :=
  ⟨(c10_enqueue_success_and_overwrite demoSdBusy 0 0 0 true demoTx demoGlobals).1,
    (c10_enqueue_success_and_overwrite demoSdBusy 0 0 0 true demoTx
      demoGlobals).2.2.1 (by decide)⟩

/-- From the terminal `DONE` phase the loop consumes the whole packet,
changes nothing and emits nothing. -/
theorem parse_loop_done (reg : Nat → ble_ancs_c_attr_list_t) (u : Nat)
    (src : List Nat) (len : Nat) :
    ∀ (f i : Nat) (s : ParseSt), s.m_parse_state = .DONE →
      parse_loop reg u src len f i s = (s, []) := by
  intro f
  induction f with
  | zero => intro i s _; rfl
  | succ f ih =>
    intro i s h
    simp only [parse_loop, parse_iter, h]
    split
    · exact ih len s h
    · rfl

/-- From the terminal `DONE` phase every subsequent packet is ignored. -/
theorem run_packets_done (reg : Nat → ble_ancs_c_attr_list_t) (u : Nat)
    (s : ParseSt) (h : s.m_parse_state = .DONE) :
    ∀ ps, run_packets reg u s ps = (s, []) := by
  intro ps
  induction ps with
  | nil => rfl
  | cons p ps ih =>
    have h1 : parse_get_notif_attrs_response reg u s p = (s, []) :=
      parse_loop_done reg u p p.length (2 * p.length + 2) 0 s h
    simp [run_packets, h1, ih]

/-- Empty packets at the front of the response leave the statics alone. -/
theorem run_packets_nil_packets (reg : Nat → ble_ancs_c_attr_list_t) (u : Nat)
    (s : ParseSt) :
    ∀ es qs : List (List Nat), (∀ e ∈ es, e = ([] : List Nat)) →
      run_packets reg u s (es ++ qs) = run_packets reg u s qs := by
  intro es
  induction es with
  | nil => intro qs _; rfl
  | cons e es ih =>
    intro qs hes
    have he : e = [] := hes e (List.mem_cons_self e es)
    subst he
    have h0 : parse_get_notif_attrs_response reg u s [] = (s, []) := rfl
    simp [run_packets, h0, ih qs (fun x hx => hes x (List.mem_cons_of_mem _ hx))]

/-- C5: if the 4-byte UID decoded from the header of a fetch response (the
first non-empty packet carries the whole header) differs from the UID the
outstanding request stored in `m_ancs_evt.notif.notif_uid`, the parser
emits zero attribute events over the whole response and ends in the
terminal `DONE` phase. -/
theorem c5_uid_mismatch_aborts (reg : Nat → ble_ancs_c_attr_list_t) (u : Nat)
    (s : ParseSt) (es : List (List Nat)) (p : List Nat) (rest : List (List Nat))
    (hphase : s.m_parse_state = .COMMAND_ID_AND_NOTIF_UID)
    (hes : ∀ e ∈ es, e = ([] : List Nat))
    (hp : 5 ≤ p.length)
    (huid : uint32_decode p 1 ≠ u) :
    run_packets reg u s (es ++ p :: rest) =
      ({ s with m_parse_state := .DONE, notif_uid := uint32_decode p 1 }, []) := by
  rw [run_packets_nil_packets reg u s es (p :: rest) hes]
  have hlen : 0 < p.length := by omega
  have hmain : parse_get_notif_attrs_response reg u s p =
      ({ s with m_parse_state := .DONE, notif_uid := uint32_decode p 1 }, []) := by
    unfold parse_get_notif_attrs_response
    rw [(by omega : 2 * p.length + 2 = (2 * p.length + 1) + 1)]
    simp only [parse_loop, parse_iter, hphase]
    rw [if_pos hlen]
    by_cases hc : p.getD 0 0 ≠ BLE_ANCS_COMMAND_ID_GET_NOTIF_ATTRIBUTES <;>
      simp only [hc, if_true, if_false, ite_true, ite_false, Nat.zero_add,
        huid, ne_eq, not_true, not_false_iff] <;>
      simp [huid] <;>
      exact fun _ => parse_loop_done reg u p p.length _ _ _ rfl
  simp [run_packets, hmain,
    run_packets_done reg u { s with m_parse_state := .DONE, notif_uid := uint32_decode p 1 } rfl rest]

/-- Witness for C5 at a concrete input: a response carrying UID 2 while
the outstanding fetch stored UID 1 produces no events and ends `DONE`. -/
theorem c5_uid_mismatch_aborts_witness :
    run_packets demoReg 1 (initParseSt 1) [[0, 2, 0, 0, 0]] =
      ({ initParseSt 1 with m_parse_state := .DONE, notif_uid := 2 }, []) := by
  have h := c5_uid_mismatch_aborts demoReg 1 (initParseSt 1) [] [0, 2, 0, 0, 0] []
    rfl (by simp) (by decide) (by decide)
  simpa [uint32_decode] using h

/-- Reading back the position just written. -/
theorem listSet_getD_self : ∀ (i : Nat) (l : List Nat) (b : Nat),
    (listSet l i b).getD i 0 = b := by
  intro i
  induction i with
  | zero =>
    intro l b
    cases l <;> rfl
  | succ i ih =>
    intro l b
    cases l with
    | nil => simpa [listSet] using ih [] b
    | cons h t => simpa [listSet] using ih t b

/-- Writing one position leaves every other position unchanged (positions
beyond the end of the list read as the padding byte 0 on both sides). -/
theorem listSet_getD_ne : ∀ (i : Nat) (l : List Nat) (b j : Nat), j ≠ i →
    (listSet l i b).getD j 0 = l.getD j 0 := by
  intro i
  induction i with
  | zero =>
    intro l b j hj
    obtain ⟨k, rfl⟩ : ∃ k, j = k + 1 := ⟨j - 1, by omega⟩
    cases l <;> simp [listSet]
  | succ i ih =>
    intro l b j hj
    cases l with
    | nil =>
      cases j with
      | zero => simp [listSet]
      | succ k => simpa [listSet] using ih [] b k (by omega)
    | cons h t =>
      cases j with
      | zero => simp [listSet]
      | succ k => simpa [listSet] using ih t b k (by omega)

/-- A sequential write leaves positions before its start unchanged. -/
theorem writeSeq_getD_lt : ∀ (bs l : List Nat) (pos j : Nat), j < pos →
    (writeSeq l pos bs).getD j 0 = l.getD j 0 := by
  intro bs
  induction bs with
  | nil => intro l pos j _; rfl
  | cons b bs ih =>
    intro l pos j hj
    rw [writeSeq, ih (listSet l pos b) (pos + 1) j (by omega)]
    exact listSet_getD_ne pos l b j (by omega)

/-- Reading back a position covered by a sequential write. -/
theorem writeSeq_getD_covered : ∀ (bs l : List Nat) (pos j : Nat), pos ≤ j →
    j < pos + bs.length → (writeSeq l pos bs).getD j 0 = bs.getD (j - pos) 0 := by
  intro bs
  induction bs with
  | nil =>
    intro l pos j h1 h2
    simp at h2
    omega
  | cons b bs ih =>
    intro l pos j h1 h2
    rw [writeSeq]
    by_cases hj : j = pos
    · subst hj
      rw [writeSeq_getD_lt bs (listSet l j b) (j + 1) j (by omega),
        Nat.sub_self, List.getD_cons_zero]
      exact listSet_getD_self j l b
    · have h3 : pos + 1 ≤ j := by omega
      rw [ih (listSet l pos b) (pos + 1) j h3 (by simp at h2 ⊢; omega)]
      obtain ⟨k, hk⟩ : ∃ k, j - pos = k + 1 := ⟨j - pos - 1, by omega⟩
      rw [hk, List.getD_cons_succ]
      congr 1
      omega

/-- Unfolding of `dataBufs` at function arity. -/
theorem dataBufs_eq (reg : Nat → ble_ancs_c_attr_list_t) (s : ParseSt) (aid : Nat)
    (seg : List Nat) :
    dataBufs reg s aid seg = fun id =>
      if id = aid then
        listSet (writeSeq (s.bufs aid) s.current_attr_index seg) (reg aid).attr_len 0
      else s.bufs id := rfl

/-- The `ATTR_DATA` phase on a truncated attribute: starting at write
offset `s.current_attr_index` with `m + 1` bytes of room left in the
registered buffer (and the declared length strictly larger than the
registered capacity), the loop copies those `m + 1` packet bytes, writes
the terminator at the capacity, skips the remaining declared bytes, emits
the attribute event, and resumes in `ATTR_ID` just past the declared
content. -/
theorem parse_loop_data_trunc (reg : Nat → ble_ancs_c_attr_list_t) (u : Nat)
    (src : List Nat) (len aid decl : Nat) :
    ∀ (m f i : Nat) (s : ParseSt),
      s.m_parse_state = .ATTR_DATA →
      s.attr_id = aid →
      s.attr_len = decl →
      s.current_attr_index + (m + 1) = (reg aid).attr_len →
      (reg aid).attr_len < decl →
      i + (decl - s.current_attr_index) ≤ len →
      parse_loop reg u src len (f + (m + 1)) i s =
        ((parse_loop reg u src len f (i + (decl - s.current_attr_index))
            (dataSt reg s aid ((List.range (m + 1)).map (fun j => src.getD (i + j) 0)))).1,
          ⟨aid, decl,
              dataBufs reg s aid
                ((List.range (m + 1)).map (fun j => src.getD (i + j) 0)) aid⟩ ::
            (parse_loop reg u src len f (i + (decl - s.current_attr_index))
              (dataSt reg s aid ((List.range (m + 1)).map (fun j => src.getD (i + j) 0)))).2) := by
  intro m
  induction m with
  | zero =>
    intro f i s hph haid hlen hcur hcap hle
    obtain ⟨ph, exp, said, slen, suid, scur, sbufs⟩ := s
    simp only at hph haid hlen hcur hle
    have hi : i < len := by omega
    rw [show f + (0 + 1) = f + 1 from by omega]
    simp only [parse_loop, parse_iter, hph, haid, hlen]
    rw [if_pos hi]
    have hc1 : scur < (reg aid).attr_len := by omega
    have hc2 : scur < decl := by omega
    have h2 : scur + 1 = (reg aid).attr_len := by omega
    have hne : ¬((reg aid).attr_len = decl) := by omega
    have e1 : i + 1 + (decl - (reg aid).attr_len) = i + (decl - scur) := by omega
    simp only [hc1, hc2, and_self, if_true, ite_true, h2, hne, eq_self_iff_true,
      or_true, false_or, hcap, e1]
    have hbufs : (fun id =>
          if id = aid then
            listSet (listSet (sbufs aid) scur (src.getD i 0)) ((reg aid).attr_len) 0
          else if id = aid then listSet (sbufs aid) scur (src.getD i 0) else sbufs id) =
        (fun id =>
          if id = aid then
            listSet (listSet (sbufs aid) scur (src.getD i 0)) ((reg aid).attr_len) 0
          else sbufs id) := by
      funext id
      by_cases hid : id = aid <;> simp [hid]
    rw [hbufs]
    simp only [dataSt, dataBufs_eq, Nat.zero_add, List.range_succ, List.range_zero,
      List.nil_append, List.map_cons, List.map_nil, Nat.add_zero, writeSeq,
      eq_self_iff_true, if_true, ite_true]
  | succ m ih =>
    intro f i s hph haid hlen hcur hcap hle
    obtain ⟨ph, exp, said, slen, suid, scur, sbufs⟩ := s
    simp only at hph haid hlen hcur hle
    have hi : i < len := by omega
    rw [show f + (m + 1 + 1) = (f + (m + 1)) + 1 from by omega]
    conv_lhs => rw [parse_loop]
    simp only [parse_iter, hph, haid, hlen]
    rw [if_pos hi]
    have hc1 : scur < (reg aid).attr_len := by omega
    have hc2 : scur < decl := by omega
    have hne1 : ¬(scur + 1 = decl) := by omega
    have hne2 : ¬(scur + 1 = (reg aid).attr_len) := by omega
    simp only [hc1, hc2, and_self, if_true, ite_true, hne1, hne2, false_or,
      or_false, if_false, ite_false, or_self]
    rw [ih f (i + 1)
      ⟨.ATTR_DATA, exp, aid, decl, suid, scur + 1,
        fun id => if id = aid then listSet (sbufs aid) scur (src.getD i 0) else sbufs id⟩
      rfl rfl rfl (by simp only; omega) hcap (by simp only; omega)]
    dsimp only
    have hidx : i + 1 + (decl - (scur + 1)) = i + (decl - scur) := by omega
    have hcomp : ((fun j => src.getD (i + j) 0) ∘ Nat.succ) =
        (fun j => src.getD (i + 1 + j) 0) := by
      funext j
      simp only [Function.comp]
      congr 1
      omega
    have hseg : List.map (fun j => src.getD (i + j) 0) (List.range (m + 1 + 1)) =
        src.getD i 0 :: List.map (fun j => src.getD (i + 1 + j) 0) (List.range (m + 1)) := by
      rw [List.range_succ_eq_map, List.map_cons, List.map_map, hcomp, Nat.add_zero]
    have hstep : dataSt reg
        ⟨.ATTR_DATA, exp, aid, decl, suid, scur + 1,
          fun id => if id = aid then listSet (sbufs aid) scur (src.getD i 0) else sbufs id⟩
        aid (List.map (fun j => src.getD (i + 1 + j) 0) (List.range (m + 1))) =
      dataSt reg ⟨.ATTR_DATA, exp, aid, decl, suid, scur, sbufs⟩ aid
        (src.getD i 0 ::
          List.map (fun j => src.getD (i + 1 + j) 0) (List.range (m + 1))) := by
      simp only [dataSt, dataBufs_eq]
      congr 1
      funext id
      by_cases hid : id = aid <;> simp [hid, writeSeq]
    have hevt : dataBufs reg
        ⟨.ATTR_DATA, exp, aid, decl, suid, scur + 1,
          fun id => if id = aid then listSet (sbufs aid) scur (src.getD i 0) else sbufs id⟩
        aid (List.map (fun j => src.getD (i + 1 + j) 0) (List.range (m + 1))) aid =
      dataBufs reg ⟨.ATTR_DATA, exp, aid, decl, suid, scur, sbufs⟩ aid
        (src.getD i 0 ::
          List.map (fun j => src.getD (i + 1 + j) 0) (List.range (m + 1))) aid :=
      congrFun (congrArg ParseSt.bufs hstep) aid
    rw [hidx, hstep, hevt, hseg]

/-- Unfolding of `truncBufs` at function arity. -/
theorem truncBufs_eq (reg : Nat → ble_ancs_c_attr_list_t) (s : ParseSt) (aid : Nat)
    (data : List Nat) :
    truncBufs reg s aid data = fun id =>
      if id = aid then
        listSet
          (writeSeq (s.bufs aid) 0
            ((List.range (reg aid).attr_len).map (fun j => data.getD j 0)))
          (reg aid).attr_len 0
      else s.bufs id := rfl

/-- C4, counterexample to the claim as stated: the claim quantifies over
every truncated attribute, including one whose declared content straddles
a packet boundary — there the remaining declared bytes are *not* consumed
from the stream and the next attribute's header does *not* parse
correctly, because the skip at line 390 only advances the intra-packet
index.  Reachable configuration: kinds 0 and 1 both registered with
capacity 1, two attributes expected, matching UID 1; the response holds
attribute 0 (declared length 3, truncated) followed by attribute 1
(length 1).  Delivered whole, both attribute events are emitted; with the
packet boundary placed inside attribute 0's skipped remainder, its
leftover bytes `20, 30` are misparsed as the next header and attribute
1's event is lost. -/
theorem c4_straddle_counterexample :
    (run_packets demoReg2 1 (initParseSt 2)
        [[0, 1, 0, 0, 0, 0, 3, 0, 10], [20, 30, 1, 1, 0, 40]]).2 =
      [⟨0, 3, [10, 0]⟩] ∧
    (run_packets demoReg2 1 (initParseSt 2)
        [[0, 1, 0, 0, 0, 0, 3, 0, 10, 20, 30, 1, 1, 0, 40]]).2 =
      [⟨0, 3, [10, 0]⟩, ⟨1, 1, [40, 0]⟩] := by
  decide

/-- C4 (amended: the claim holds provided the attribute's declared content
lies entirely within the current packet — the counterexample above shows
the claim as stated fails when the content straddles a packet boundary):
for a registered attribute `aid` whose declared 16-bit length
`lo ||| (hi <<< 8)` exceeds the registered capacity, the Accumulate-Data
phase copies exactly `capacity` bytes (the prefix of the content) into the
destination buffer, writes the terminator byte at offset `capacity`,
advances the read position past the remaining declared bytes without
copying them, emits exactly one attribute event, and resumes in the
`ATTR_ID` phase at the byte just past the declared content (position
`3 + declared length`), so the next attribute's header parses correctly:
the walk over the whole packet equals that one event followed by the loop
restarted in `ATTR_ID` on the remaining bytes (`truncCont`). -/
theorem c4_truncation (reg : Nat → ble_ancs_c_attr_list_t) (u : Nat) (s : ParseSt)
    (aid lo hi : Nat) (data rest : List Nat)
    (hphase : s.m_parse_state = .ATTR_ID)
    (hexp : s.m_expected_number_of_attrs ≠ 0)
    (hget : (reg aid).get = true)
    (hcap_pos : 0 < (reg aid).attr_len)
    (hcap : (reg aid).attr_len < lo ||| (hi <<< 8))
    (hdata : data.length = lo ||| (hi <<< 8)) :
    parse_get_notif_attrs_response reg u s (aid :: lo :: hi :: (data ++ rest)) =
      ((truncCont reg u s aid lo hi data rest).1,
        ⟨aid, lo ||| (hi <<< 8), truncBufs reg s aid data aid⟩ ::
          (truncCont reg u s aid lo hi data rest).2) ∧
    (∀ j, j < (reg aid).attr_len →
      (truncBufs reg s aid data aid).getD j 0 = data.getD j 0) ∧
    (truncBufs reg s aid data aid).getD (reg aid).attr_len 0 = 0 := by
  obtain ⟨m, hm⟩ : ∃ m, (reg aid).attr_len = m + 1 :=
    ⟨(reg aid).attr_len - 1, by omega⟩
  have hdpos : 0 < lo ||| (hi <<< 8) := lt_trans hcap_pos hcap
  refine ⟨?_, ?_, ?_⟩
  · obtain ⟨ph, exp, said, slen, suid, scur, sbufs⟩ := s
    simp only at hphase hexp
    have hL : (aid :: lo :: hi :: (data ++ rest)).length =
        3 + (data.length + rest.length) := by
      simp only [List.length_cons, List.length_append]
      omega
    have hg0 : 0 < (aid :: lo :: hi :: (data ++ rest)).length := by omega
    have hg1 : 0 + 1 < (aid :: lo :: hi :: (data ++ rest)).length := by omega
    have hg2 : 0 + 1 + 1 < (aid :: lo :: hi :: (data ++ rest)).length := by omega
    unfold parse_get_notif_attrs_response
    rw [show 2 * (aid :: lo :: hi :: (data ++ rest)).length + 2 =
      (2 * (aid :: lo :: hi :: (data ++ rest)).length + 1) + 1 from by omega]
    conv_lhs => rw [parse_loop]
    simp only [parse_iter, hphase, hexp, List.getD_cons_zero, if_false, ite_false, hget,
      if_true, ite_true]
    rw [if_pos hg0]
    conv_lhs => rw [parse_loop]
    simp only [parse_iter, List.getD_cons_succ, List.getD_cons_zero]
    rw [if_pos hg1]
    rw [show 2 * (aid :: lo :: hi :: (data ++ rest)).length =
      (2 * (aid :: lo :: hi :: (data ++ rest)).length - 1) + 1 from by omega]
    conv_lhs => rw [parse_loop]
    simp only [parse_iter, List.getD_cons_succ, List.getD_cons_zero]
    rw [if_pos hg2]
    have hdne : ¬(lo ||| hi <<< 8 = 0) := by omega
    rw [if_pos (show lo ||| hi <<< 8 ≠ 0 from hdne)]
    rw [show 2 * (aid :: lo :: hi :: (data ++ rest)).length - 1 =
      (2 * (aid :: lo :: hi :: (data ++ rest)).length - 1 - (m + 1)) + (m + 1) from by omega]
    rw [parse_loop_data_trunc reg u (aid :: lo :: hi :: (data ++ rest))
      (aid :: lo :: hi :: (data ++ rest)).length aid (lo ||| hi <<< 8) m
      (2 * (aid :: lo :: hi :: (data ++ rest)).length - 1 - (m + 1)) (0 + 1 + 1 + 1)
      ⟨.ATTR_DATA, exp - 1, aid, lo ||| hi <<< 8, suid, 0, sbufs⟩
      rfl rfl rfl (by simp only; omega) hcap (by simp only; omega)]
    have hsg : (List.range (m + 1)).map
        (fun j => (aid :: lo :: hi :: (data ++ rest)).getD (0 + 1 + 1 + 1 + j) 0) =
        (List.range (m + 1)).map (fun j => data.getD j 0) := by
      refine List.map_congr_left ?_
      intro j hj
      have hj' : j < m + 1 := List.mem_range.mp hj
      rw [show 0 + 1 + 1 + 1 + j = j + 1 + 1 + 1 from by omega]
      simp only [List.getD_cons_succ]
      exact List.getD_append _ _ _ _ (by omega)
    simp only [truncCont, truncSt, truncBufs_eq, dataSt, dataBufs_eq, hm, hsg,
      Nat.sub_zero,
      (show 0 + 1 + 1 + 1 + (lo ||| hi <<< 8) = 3 + (lo ||| hi <<< 8) from by omega)]
  · intro j hj
    simp only [truncBufs_eq, eq_self_iff_true, if_true, ite_true]
    rw [listSet_getD_ne ((reg aid).attr_len) _ 0 j (by omega)]
    rw [writeSeq_getD_covered _ _ 0 j (by omega)
      (by simp only [List.length_map, List.length_range]; omega)]
    simp only [Nat.sub_zero]
    rw [List.getD_eq_getElem?_getD, List.getElem?_map, List.getElem?_range hj]
    simp
  · simp only [truncBufs_eq, eq_self_iff_true, if_true, ite_true]
    exact listSet_getD_self _ _ _


/-- Witness for C4 at a concrete input: kind 0 registered with capacity 1,
declared length 2, content `[7, 8]` — one event with the 1-byte prefix
copied and terminated. -/
theorem c4_truncation_witness :
    (parse_get_notif_attrs_response demoReg 1 demoAttrSt
        (0 :: 2 :: 0 :: ([7, 8] ++ []))).2 =
      [⟨0, 2, [7, 0]⟩] := by
  rw [(c4_truncation demoReg 1 demoAttrSt 0 2 0 [7, 8] [] rfl (by decide) (by decide)
    (by decide) (by decide) (by decide)).1]
  decide

end BleAncs
